import Mathlib

/-!
Shallow embedding of the jalb layer-4 load balancer (Rust) in Lean 4.

Each definition mirrors one item of the Rust source:
  * `NetworkTarget`, `NetworkTarget.push`, `NetworkTarget.as_string` — src/config.rs
  * `PeerConfig`, `BackendOptions` — src/config.rs
  * `Peer`, `Peer.from_config`, `Peer.health_check` — src/peer.rs
  * `Security`, `Security.is_allowed` — src/security.rs
  * `RoundRobin` (`new` / `next` / `add_peer`) — src/selector.rs
  * `Backend`, `RoundRobinSelector.select_service` — src/backend.rs, src/selectors.rs
  * `lookup_backend` — the backend-lookup step of `LoadBalancer::serve_request`, src/main.rs

Modelling conventions: machine integers (`u16`, `u32`, `u64`, `usize`) become
`Nat` (none of the embedded operations performs arithmetic that can overflow:
the only arithmetic is `(i + 1) % len` with `len = pool length`, whose value
stays below `len`); `f64` geocoordinates become `Rat` (the code only stores and
copies them, it performs no floating-point arithmetic on them);
`Result<T, E>` becomes `Except E T`; `Option<T>` becomes `Option T`;
`Arc<Peer>` is identity (pure values); `HashSet<IpAddr>` becomes a list queried
with `contains` / `isEmpty`, which is all `Security::is_allowed` uses.
The network side effects of `Peer::health_check` are made explicit by an
oracle argument `net : NetworkTarget → ProbeOutcome` giving, for each target,
the outcome of `timeout(connect_timeout, connect(target))`; the code passes
`self.address` to the connect call in both match arms, so the embedding
consults `net p.address` exactly where the code awaits the connection.
Mutation of `&mut self` becomes explicit state passing: a Rust method that
mutates returns the updated value alongside its result.
-/

namespace Jalb

/-- IP addresses (`std::net::IpAddr`): v4 octets or v6 segments. -/
inductive IpAddr
  | v4 (a b c d : Nat)
  | v6 (segments : List Nat)
deriving DecidableEq, Repr

/-- Rust `std::net::SocketAddr`: an IP address plus a port. -/
structure SockAddr where
  ip : IpAddr
  port : Nat
deriving DecidableEq, Repr

/-- The parts of `url::Url` that the embedded code consults: the scheme, host
and explicit port (for `port_or_known_default`), the cannot-be-a-base flag
(which decides whether `path_segments_mut` returns `Ok` or `Err`), and the
path segments (which `push` extends). -/
structure Url where
  scheme : String
  host : Option String
  port : Option Nat
  cannot_be_a_base : Bool
  path_segments : List String
deriving DecidableEq, Repr

/-- The `url` crate's table of well-known default ports, used by
`Url::port_or_known_default`. -/
def Url.known_default_port (scheme : String) : Option Nat :=
  if scheme = "http" ∨ scheme = "ws" then some 80
  else if scheme = "https" ∨ scheme = "wss" then some 443
  else if scheme = "ftp" then some 21
  else none

/-- Rust `Url::port_or_known_default`: the explicit port if present, otherwise the
scheme's well-known default. -/
def Url.port_or_known_default (u : Url) : Option Nat :=
  u.port.orElse fun _ => Url.known_default_port u.scheme

/-- Display form of an IP address. -/
def IpAddr.to_string : IpAddr → String
  | .v4 a b c d =>
      toString a ++ "." ++ toString b ++ "." ++ toString c ++ "." ++ toString d
  | .v6 segments => String.intercalate ":" (segments.map toString)

/-- Display form of a socket address (`SocketAddr::to_string`). -/
def SockAddr.to_string (s : SockAddr) : String :=
  s.ip.to_string ++ ":" ++ toString s.port

/-- Display form of a URL (`Url::to_string`). -/
def Url.to_string (u : Url) : String :=
  u.scheme ++ "://" ++ u.host.getD "" ++
    (match u.port with
     | some p => ":" ++ toString p
     | none => "") ++
    "/" ++ String.intercalate "/" u.path_segments

/-- Rust `NetworkTarget` (src/config.rs): a parsed network destination, either a
URL or a bare socket address. -/
inductive NetworkTarget
  | Url (u : Url)
  | SocketAddr (addr : SockAddr)
deriving DecidableEq, Repr

/-- Rust `NetworkTargetError` (src/errors.rs). -/
inductive NetworkTargetError
  | InvalidTargetError (s : String)
  | InvalidUrlBase (s : String)
  | PushToSocketAddr
deriving DecidableEq, Repr

/-- Rust `NetworkTarget::as_string` (src/config.rs): the canonical string form. -/
def NetworkTarget.as_string : NetworkTarget → String
  | .SocketAddr addr => addr.to_string
  | .Url u => u.to_string

/-- Rust `NetworkTarget::push` (src/config.rs lines 149–164).  On the `Url`
variant it asks for `path_segments_mut()`, which the `url` crate grants
exactly when the URL can be a base, and appends the segment; on a URL that
cannot be a base it fails with `InvalidUrlBase` carrying the target's string
form; on the `SocketAddr` variant it fails with `PushToSocketAddr`.  The
`&mut self` receiver is made explicit: the returned target is the state after
the call, unchanged on every error path. -/
def NetworkTarget.push (t : NetworkTarget) (path : String) :
    NetworkTarget × Except NetworkTargetError Unit :=
  let str := t.as_string
  match t with
  | .Url u =>
      if u.cannot_be_a_base then
        (t, .error (.InvalidUrlBase str))
      else
        (.Url { u with path_segments := u.path_segments ++ [path] }, .ok ())
  | .SocketAddr _ => (t, .error .PushToSocketAddr)

/-- Rust `std::io::ErrorKind`, restricted to the kinds the embedded code
constructs or that a connection attempt can produce. -/
inductive IoErrorKind
  | addrNotAvailable
  | invalidInput
  | notFound
  | connectionRefused
  | otherKind
deriving DecidableEq, Repr

/-- Rust `std::io::Error`: a kind plus a message. -/
structure IoError where
  kind : IoErrorKind
  msg : String
deriving DecidableEq, Repr

/-- Rust `geo::Coord`: an x (longitude) / y (latitude) pair.  The code stores and
copies coordinates but never computes with them, so exact rationals model the
`f64` fields faithfully for every operation embedded here. -/
structure Coord where
  x : Rat
  y : Rat
deriving DecidableEq, Repr

/-- Rust `std::time::Duration`, identified by its length in seconds. -/
structure Duration where
  secs : Nat
deriving DecidableEq, Repr

/-- Rust `PeerConfig` (src/config.rs lines 198–203): one `[[backend.peers]]`
entry. -/
structure PeerConfig where
  address : NetworkTarget
  weight : Option Nat
  coordinates : Option Coord
deriving DecidableEq, Repr

/-- Rust `PeerConfig::get_addr`. -/
def PeerConfig.get_addr (c : PeerConfig) : NetworkTarget := c.address

/-- Rust `PeerConfig::get_weight`. -/
def PeerConfig.get_weight (c : PeerConfig) : Option Nat := c.weight

/-- Rust `PeerConfig::get_coordinates`. -/
def PeerConfig.get_coordinates (c : PeerConfig) : Option Coord := c.coordinates

/-- Rust `BackendOptions` (src/config.rs lines 58–68). -/
structure BackendOptions where
  name : String
  health_endpoint : Option String
  health_check_interval_seconds : Option Nat
  health_check_timeout_seconds : Option Nat
  failed_request_threshold : Option Nat
  request_timeout_seconds : Option Nat
  rate_limit : Option Nat
  peers : List PeerConfig
deriving DecidableEq, Repr

/-- Rust `Peer` (src/peer.rs lines 22–29). -/
structure Peer where
  healthy : Bool
  health_endpoint : Option NetworkTarget
  address : NetworkTarget
  weight : Nat
  coordinates : Option Coord
deriving DecidableEq, Repr

/-- Rust `Peer::from_config` (src/peer.rs lines 44–63).  When the backend group
configures a `health_endpoint` string, the code clones the peer's address
into `health_addr` (the configured path string is bound but never appended);
otherwise `health_addr` stays `None`.  The function builds the peer with
`healthy = false`, the configured address, `get_weight().unwrap_or(1)`, and
the configured coordinates, and always returns `Ok`. -/
def Peer.from_config (options : PeerConfig) (backend_config : BackendOptions) :
    Except NetworkTargetError Peer :=
  let addr := options.get_addr
  let health_addr : Option NetworkTarget :=
    match backend_config.health_endpoint with
    | some _ => some addr
    | none => none
  .ok
    { healthy := false
      address := addr
      weight := (options.get_weight).getD 1
      coordinates := options.get_coordinates
      health_endpoint := health_addr }

/-- Outcome of `timeout(connect_timeout, connect(target))` awaited in
`Peer::health_check`: the connection completed, the connection attempt
returned an I/O error, or the timeout elapsed first. -/
inductive ProbeOutcome
  | connected
  | connError (e : IoError)
  | timedOut
deriving DecidableEq, Repr

/-- Rust `Peer::health_check` (src/peer.rs lines 65–130).  First, a missing
`health_endpoint` returns `Err(AddrNotAvailable)` before anything else.
Otherwise the code matches on `self.address`: for `SocketAddr` it connects to
that very address; for `Url` it first requires `port_or_known_default` to be
`Some` (else `Err(InvalidInput)`) and then connects to the URL string —
in both arms the connect destination is `self.address`, so the oracle is
consulted at `p.address`.  A completed connection sets `healthy := true` and
returns `Ok true`; a connection error sets `healthy := false` and returns
`Err e`; a timeout sets `healthy := false` and returns `Ok false`.
(`tcpsocket_from_address` allocating a raw socket can fail only with an
environment error that `?` would propagate; socket allocation is modelled as
succeeding, which only makes the error-free paths larger.) -/
def Peer.health_check (p : Peer) (connect_timeout : Duration)
    (net : NetworkTarget → ProbeOutcome) : Peer × Except IoError Bool :=
  if p.health_endpoint.isNone then
    (p, .error { kind := .addrNotAvailable, msg := "no health endpoint was configured" })
  else
    match p.address with
    | .SocketAddr _ =>
        match net p.address with
        | .connected => ({ p with healthy := true }, .ok true)
        | .connError e => ({ p with healthy := false }, .error e)
        | .timedOut => ({ p with healthy := false }, .ok false)
    | .Url u =>
        if (u.port_or_known_default).isNone then
          (p, .error
            { kind := .invalidInput
              msg := "url has no associated port. Network balancers require all urls to have a port" })
        else
          match net p.address with
          | .connected => ({ p with healthy := true }, .ok true)
          | .connError e => ({ p with healthy := false }, .error e)
          | .timedOut => ({ p with healthy := false }, .ok false)

/-- Rust `Security` (src/security.rs): the allow set (`ip_whitelist`) and deny set
(`ip_blacklist`). -/
structure Security where
  ip_whitelist : List IpAddr
  ip_blacklist : List IpAddr
deriving DecidableEq, Repr

/-- Rust `Security::new`: both sets empty. -/
def Security.new : Security :=
  { ip_whitelist := [], ip_blacklist := [] }

/-- Rust `Security::is_allowed` (src/security.rs lines 19–31): deny if the
blacklist contains the IP; otherwise deny if the whitelist is non-empty and
does not contain the IP; otherwise allow. -/
def Security.is_allowed (s : Security) (ip : IpAddr) : Bool :=
  if s.ip_blacklist.contains ip then false
  else if !s.ip_whitelist.isEmpty && !s.ip_whitelist.contains ip then false
  else true

/-- Rust `RoundRobin` (src/selector.rs lines 13–17): the rotating cursor and the
owned pool of peers. -/
structure RoundRobin where
  last_idx : Nat
  pool : List Peer
deriving DecidableEq, Repr

/-- Rust `RoundRobin::new` (src/selector.rs lines 19–26): cursor 0, empty pool. -/
def RoundRobin.new : RoundRobin :=
  { last_idx := 0, pool := [] }

/-- Rust `RoundRobin::next` (src/selector.rs lines 36–44): on an empty pool return
`None`; otherwise advance the cursor to `(last_idx + 1) % len` first and
return the peer at the advanced cursor.  The `&mut self` receiver is made
explicit in the returned state. -/
def RoundRobin.next (s : RoundRobin) : Option Peer × RoundRobin :=
  let len := s.pool.length
  if len = 0 then
    (none, s)
  else
    let idx := (s.last_idx + 1) % len
    (s.pool[idx]?, { s with last_idx := idx })

/-- Rust `RoundRobin::add_peer` (src/selector.rs lines 46–48): push onto the end
of the pool. -/
def RoundRobin.add_peer (s : RoundRobin) (p : Peer) : RoundRobin :=
  { s with pool := s.pool ++ [p] }

/-- The selector state after `k` successive `next()` calls. -/
def RoundRobin.iterate (s : RoundRobin) : Nat → RoundRobin
  | 0 => s
  | n + 1 => ((RoundRobin.iterate s n).next).2

/-- A fresh `RoundRobin` selector with peers `a`, `b`, `c` added in that
order, as in the scenario of the specification. -/
def freshRoundRobin (a b c : Peer) : RoundRobin :=
  ((RoundRobin.new.add_peer a).add_peer b).add_peer c

/-- Rust `Backend` (src/backend.rs lines 4–12). -/
structure Backend where
  health_endpoint : Option String
  health_check_interval : Option Duration
  health_check_timeout : Option Duration
  request_timeout : Option Duration
  failed_request_threshold : Option Nat
  rate_limit : Option Nat
deriving DecidableEq, Repr

/-- Rust `RoundRobinSelector` (src/selectors.rs lines 7–10). -/
structure RoundRobinSelector where
  last_idx : Nat
deriving DecidableEq, Repr

/-- Rust `RoundRobinSelector::new` (src/selectors.rs lines 12–16). -/
def RoundRobinSelector.new : RoundRobinSelector :=
  { last_idx := 0 }

/-- Rust `RoundRobinSelector::select_service` (src/selectors.rs lines 24–36): on
an empty list return 0 without touching the cursor; otherwise return the
current cursor and advance it to `(last_idx + 1) % backends.len()`.  The
`&mut self` receiver is made explicit in the returned state. -/
def RoundRobinSelector.select_service (s : RoundRobinSelector)
    (backends : List Backend) : Nat × RoundRobinSelector :=
  if backends.isEmpty then
    (0, s)
  else
    (s.last_idx, { last_idx := (s.last_idx + 1) % backends.length })

/-- The backend-lookup step of `LoadBalancer::serve_request` (src/main.rs
lines 137–141): `self.services.get(backend_idx).ok_or_else(NotFound)`. -/
def lookup_backend (services : List Backend) (backend_idx : Nat) :
    Except IoError Backend :=
  match services[backend_idx]? with
  | some b => .ok b
  | none => .error { kind := .notFound, msg := "No backend available" }

/-! Concrete values used by counterexamples and witnesses. -/

/-- A peer at 127.0.0.1:8080. -/
def peerA : Peer :=
  { healthy := false, health_endpoint := none
    address := .SocketAddr { ip := .v4 127 0 0 1, port := 8080 }
    weight := 1, coordinates := none }

/-- A peer at 127.0.0.1:8081. -/
def peerB : Peer :=
  { healthy := false, health_endpoint := none
    address := .SocketAddr { ip := .v4 127 0 0 1, port := 8081 }
    weight := 1, coordinates := none }

/-- A peer at 127.0.0.1:8082. -/
def peerC : Peer :=
  { healthy := false, health_endpoint := none
    address := .SocketAddr { ip := .v4 127 0 0 1, port := 8082 }
    weight := 1, coordinates := none }

/-! Theorems. -/

/-- After `k` calls on a fresh three-peer selector the pool is unchanged and
the cursor sits at `k % 3`. -/
theorem RoundRobin.iterate_fresh (a b c : Peer) (k : Nat) :
    (freshRoundRobin a b c).iterate k = { last_idx := k % 3, pool := [a, b, c] } := by
  induction k with
  | zero => rfl
  | succ n ih =>
      have h3 : ((n % 3) + 1) % 3 = (n + 1) % 3 := by omega
      simp [RoundRobin.iterate, ih, RoundRobin.next, h3]

/-- C1, counterexample: on a fresh selector whose pool is `[peerA, peerB,
peerC]` added in that order, the very first `next()` call returns `peerB`,
not `peerA` as the claim requires, because the cursor is advanced before the
peer is read. -/
theorem claim1_counterexample :
    ((((RoundRobin.new.add_peer peerA).add_peer peerB).add_peer peerC).next).1
        = some peerB ∧ peerB ≠ peerA := by
  exact ⟨rfl, by decide⟩

/-- C1, amended: on a fresh selector with pool `[a, b, c]` the k-th `next()`
call (1-based) returns the peer at pool index `k % 3` — the sequence is
b, c, a, b, c, a, … — because `next` advances the cursor to
`(last_idx + 1) % len` before reading.  Stated with `k` previous calls
already performed, the next call returns pool index `(k + 1) % 3`. -/
theorem claim1_round_robin_sequence (a b c : Peer) (k : Nat) :
    (((freshRoundRobin a b c).iterate k).next).1 = [a, b, c][(k + 1) % 3]? := by
  rw [RoundRobin.iterate_fresh]
  have h3 : ((k % 3) + 1) % 3 = (k + 1) % 3 := by omega
  simp [RoundRobin.next, h3]

/-- C4: `next()` on an empty pool returns `None` and leaves the selector
unchanged, whatever the cursor value; the embedded `next` is a total
function, so no out-of-bounds access or panic is possible on this path. -/
theorem claim4_empty_pool_next (cursor : Nat) :
    (RoundRobin.next { last_idx := cursor, pool := [] }).1 = none ∧
    (RoundRobin.next { last_idx := cursor, pool := [] }).2
        = { last_idx := cursor, pool := [] } := by
  exact ⟨rfl, rfl⟩

/-- C5: `is_allowed` denies an IP in the deny set; otherwise it allows
everything when the allow set is empty; otherwise it allows exactly the
members of the allow set.  In particular an IP in both sets is denied. -/
theorem claim5_is_allowed_spec (s : Security) (ip : IpAddr) :
    s.is_allowed ip =
      (!s.ip_blacklist.contains ip &&
        (s.ip_whitelist.isEmpty || s.ip_whitelist.contains ip)) := by
  unfold Security.is_allowed
  cases hb : s.ip_blacklist.contains ip <;>
    cases hw : s.ip_whitelist.isEmpty <;>
      cases hc : s.ip_whitelist.contains ip <;> simp [hb, hw, hc]

/-- A backend group configuring no health endpoint. -/
def bareBackendOptions : BackendOptions :=
  { name := "b", health_endpoint := none
    health_check_interval_seconds := none, health_check_timeout_seconds := none
    failed_request_threshold := none, request_timeout_seconds := none
    rate_limit := none, peers := [] }

/-- A peer entry whose coordinate is far outside both valid ranges
(latitude 500 ∉ [-90, 90], longitude 500 ∉ [-180, 180]). -/
def badCoordConfig : PeerConfig :=
  { address := .SocketAddr { ip := .v4 10 0 0 1, port := 80 }
    weight := none
    coordinates := some { x := 500, y := 500 } }

/-- A peer entry that configures an explicit weight of 0. -/
def zeroWeightConfig : PeerConfig :=
  { address := .SocketAddr { ip := .v4 10 0 0 2, port := 80 }
    weight := some 0
    coordinates := none }

/-- A peer entry that omits the weight. -/
def defaultWeightConfig : PeerConfig :=
  { address := .SocketAddr { ip := .v4 10 0 0 3, port := 80 }
    weight := none
    coordinates := none }

/-- C6, counterexample: a configuration entry whose latitude and longitude
are both 500 — outside [-90, 90] and [-180, 180] — is not rejected:
`from_config` returns `Ok` with the out-of-range coordinate stored in the
peer, so no coordinate error exists on this path. -/
theorem claim6_counterexample :
    (90 : Rat) < 500 ∧ (180 : Rat) < 500 ∧
    Peer.from_config badCoordConfig bareBackendOptions =
      .ok
        { healthy := false, health_endpoint := none
          address := .SocketAddr { ip := .v4 10 0 0 1, port := 80 }
          weight := 1
          coordinates := some { x := 500, y := 500 } } := by
  refine ⟨by norm_num, by norm_num, rfl⟩

/-- C6, amended: peer construction performs no coordinate validation at all —
for every configuration entry it returns `Ok` and copies the configured
coordinate (in range or not) into the peer unchanged. -/
theorem claim6_no_coordinate_validation (options : PeerConfig)
    (backend_config : BackendOptions) :
    ∃ p : Peer, Peer.from_config options backend_config = .ok p ∧
      p.coordinates = options.coordinates := by
  exact ⟨_, rfl, rfl⟩

/-- C7, counterexample: a configuration entry with an explicit weight of 0
produces a peer of weight 0 — the default applies only to an omitted
weight, so "no construction from any configuration yields weight 0" fails. -/
theorem claim7_counterexample :
    Peer.from_config zeroWeightConfig bareBackendOptions =
      .ok
        { healthy := false, health_endpoint := none
          address := .SocketAddr { ip := .v4 10 0 0 2, port := 80 }
          weight := 0
          coordinates := none } := by
  rfl

/-- C7, amended: the constructed peer's weight is the configured weight when
one is given and 1 when the entry omits it; an explicit configured value —
including 0 — is carried through unvalidated. -/
theorem claim7_weight_from_config (options : PeerConfig)
    (backend_config : BackendOptions) (p : Peer)
    (h : Peer.from_config options backend_config = .ok p) :
    (options.weight = none → p.weight = 1) ∧
    (∀ w : Nat, options.weight = some w → p.weight = w) := by
  have hp :
      ({ healthy := false
         address := options.get_addr
         weight := (options.get_weight).getD 1
         coordinates := options.get_coordinates
         health_endpoint :=
           match backend_config.health_endpoint with
           | some _ => some options.get_addr
           | none => none } : Peer) = p := by
    simpa [Peer.from_config] using h
  subst hp
  constructor
  · intro hw
    simp [PeerConfig.get_weight, hw]
  · intro w hw
    simp [PeerConfig.get_weight, hw]

/-- C7, witness: instantiating the amended theorem at the entry that omits
the weight shows the default of 1. -/
theorem claim7_weight_witness :
    (defaultWeightConfig.weight = none →
      (Peer.mk false none (.SocketAddr { ip := .v4 10 0 0 3, port := 80 }) 1 none).weight = 1) ∧
    (∀ w : Nat, defaultWeightConfig.weight = some w →
      (Peer.mk false none (.SocketAddr { ip := .v4 10 0 0 3, port := 80 }) 1 none).weight = w) :=
  claim7_weight_from_config defaultWeightConfig bareBackendOptions _ rfl

/-- C8: pushing a path segment onto a `SocketAddr` target fails with the
dedicated `PushToSocketAddr` error and returns the target unchanged, and
pushing onto a `Url` target whose URL can be a base appends the segment and
succeeds. -/
theorem claim8_push_behaviour (sa : SockAddr) (u : Url) (path : String)
    (h : u.cannot_be_a_base = false) :
    NetworkTarget.push (.SocketAddr sa) path
        = (.SocketAddr sa, .error .PushToSocketAddr) ∧
    NetworkTarget.push (.Url u) path
        = (.Url { u with path_segments := u.path_segments ++ [path] }, .ok ()) := by
  constructor
  · rfl
  · simp [NetworkTarget.push, h]

/-- C8, witness: the theorem applied to 10.0.0.1:80 and a base-capable URL. -/
theorem claim8_push_witness :
    NetworkTarget.push (.SocketAddr { ip := .v4 10 0 0 1, port := 80 }) "api"
        = (.SocketAddr { ip := .v4 10 0 0 1, port := 80 }, .error .PushToSocketAddr) ∧
    NetworkTarget.push
        (.Url { scheme := "http", host := some "example.com", port := some 8080
                cannot_be_a_base := false, path_segments := [] }) "api"
        = (.Url { scheme := "http", host := some "example.com", port := some 8080
                  cannot_be_a_base := false, path_segments := ["api"] }, .ok ()) :=
  claim8_push_behaviour { ip := .v4 10 0 0 1, port := 80 }
    { scheme := "http", host := some "example.com", port := some 8080
      cannot_be_a_base := false, path_segments := [] } "api" rfl

/-- A distinct health-check target, 127.0.0.1:9000. -/
def healthTarget : NetworkTarget :=
  .SocketAddr { ip := .v4 127 0 0 1, port := 9000 }

/-- A peer whose primary address is 127.0.0.1:8080 and whose health-check
endpoint is the distinct `healthTarget`. -/
def probedPeer : Peer :=
  { healthy := false
    health_endpoint := some healthTarget
    address := .SocketAddr { ip := .v4 127 0 0 1, port := 8080 }
    weight := 1, coordinates := none }

/-- A peer with no configured health-check endpoint. -/
def noEndpointPeer : Peer :=
  { healthy := false, health_endpoint := none
    address := .SocketAddr { ip := .v4 127 0 0 1, port := 8081 }
    weight := 1, coordinates := none }

/-- A connection-refused I/O error. -/
def refusedError : IoError :=
  { kind := .connectionRefused, msg := "connection refused" }

/-- A network in which every connection attempt times out. -/
def netTimedOut : NetworkTarget → ProbeOutcome := fun _ => .timedOut

/-- A network in which connecting to the distinct health-check target
completes, while connecting to anything else times out. -/
def netHealthOnly : NetworkTarget → ProbeOutcome := fun t =>
  if t = healthTarget then .connected else .timedOut

/-- C2, counterexample: a lower-level connection error is not resolved to a
normal negative result — `health_check` on a peer with a configured health
endpoint propagates it as `Err` (the health flag is set false, but the call
raises the error instead of returning `Unreachable` normally). -/
theorem claim2_counterexample :
    probedPeer.health_check { secs := 1 } (fun _ => .connError refusedError)
        = (probedPeer, .error refusedError) := by
  rfl

/-- C2, amended: for a peer with a configured health endpoint and a
socket-address target, a timeout resolves normally to `Ok false` with the
health flag set false, and a completed connection to `Ok true` with the flag
set true; but a lower-level connection error is propagated as `Err e` (with
the flag set false), so the probe is error-free only on the timeout and
success paths. -/
theorem claim2_probe_outcomes (p : Peer) (d : Duration)
    (net : NetworkTarget → ProbeOutcome) (t : NetworkTarget) (sa : SockAddr)
    (he : p.health_endpoint = some t) (ha : p.address = .SocketAddr sa) :
    (net p.address = .timedOut →
      p.health_check d net = ({ p with healthy := false }, .ok false)) ∧
    (net p.address = .connected →
      p.health_check d net = ({ p with healthy := true }, .ok true)) ∧
    (∀ e : IoError, net p.address = .connError e →
      p.health_check d net = ({ p with healthy := false }, .error e)) := by
  refine ⟨fun hn => ?_, fun hn => ?_, fun e hn => ?_⟩ <;>
    · unfold Peer.health_check
      rw [ha] at hn ⊢
      simp [he, hn]

/-- C2, witness: the amended theorem applied to `probedPeer` under the
all-timeouts network: the probe returns `Ok false` and marks the peer
unhealthy. -/
theorem claim2_probe_witness :
    probedPeer.health_check { secs := 1 } netTimedOut
        = ({ probedPeer with healthy := false }, .ok false) :=
  (claim2_probe_outcomes probedPeer { secs := 1 } netTimedOut healthTarget
      { ip := .v4 127 0 0 1, port := 8080 } rfl rfl).1 rfl

/-- C3, counterexample: both halves of the claim fail.  A peer with no
distinct health-check endpoint does not fall back to its primary target —
the probe refuses to run and returns `Err(AddrNotAvailable)` even though the
network would accept the connection; and for a peer whose distinct
health-check target accepts connections while its primary address times out,
the probe reports a timeout (`Ok false`): the connection was opened to the
primary address, not to the configured health-check target. -/
theorem claim3_counterexample :
    (noEndpointPeer.health_check { secs := 1 } (fun _ => .connected)).2
        = .error { kind := .addrNotAvailable, msg := "no health endpoint was configured" } ∧
    (probedPeer.health_check { secs := 1 } netHealthOnly).2 = .ok false := by
  exact ⟨rfl, rfl⟩

/-- C3, amended: the probe's connection attempt always goes to the peer's
primary target — its whole result depends only on the network's behaviour at
`p.address`, never at the configured health-check target — and when no
health-check endpoint is configured the probe does not run at all but fails
with `AddrNotAvailable` instead of falling back to the primary target. -/
theorem claim3_probes_primary_target (p : Peer) (d : Duration)
    (net net' : NetworkTarget → ProbeOutcome)
    (h : net p.address = net' p.address) :
    p.health_check d net = p.health_check d net' ∧
    (p.health_endpoint = none →
      (p.health_check d net).2
          = .error { kind := .addrNotAvailable, msg := "no health endpoint was configured" }) := by
  constructor
  · unfold Peer.health_check
    rw [h]
  · intro hn
    unfold Peer.health_check
    simp [hn]

/-- C3, witness: the amended theorem applied to `probedPeer` under the
health-target-only network and the all-timeouts network, which agree at the
peer's primary address: the probe cannot tell them apart. -/
theorem claim3_probes_primary_witness :
    probedPeer.health_check { secs := 1 } netHealthOnly
        = probedPeer.health_check { secs := 1 } netTimedOut :=
  (claim3_probes_primary_target probedPeer { secs := 1 } netHealthOnly
      netTimedOut (by decide)).1

/-- C9: when `health_endpoint` is `None`, `health_check` returns
`Err(AddrNotAvailable)` with the stated message, leaves the peer — in
particular its health flag — unchanged, and consults the network oracle at
no target (the result is the same for every `net`). -/
theorem claim9_no_endpoint_error (p : Peer) (d : Duration)
    (net : NetworkTarget → ProbeOutcome)
    (h : p.health_endpoint = none) :
    p.health_check d net
        = (p, .error { kind := .addrNotAvailable, msg := "no health endpoint was configured" }) := by
  unfold Peer.health_check
  simp [h]

/-- C9, witness: the theorem applied to `noEndpointPeer` under a network
that would accept every connection. -/
theorem claim9_no_endpoint_witness :
    noEndpointPeer.health_check { secs := 1 } (fun _ => .connected)
        = (noEndpointPeer,
           .error { kind := .addrNotAvailable, msg := "no health endpoint was configured" }) :=
  claim9_no_endpoint_error noEndpointPeer { secs := 1 } (fun _ => .connected) rfl

/-- A backend with every option left unset. -/
def bareBackend : Backend :=
  { health_endpoint := none, health_check_interval := none
    health_check_timeout := none, request_timeout := none
    failed_request_threshold := none, rate_limit := none }

/-- C10, counterexample: the in-bounds half of the claim fails for a
reachable selector state.  One call on a fresh selector against a two-element
list leaves the cursor at 1; calling that selector against a non-empty
one-element list returns index 1, which is not below the list's length 1, and
`serve_request`'s lookup maps it to the `NotFound` "No backend available"
error even though a backend exists. -/
theorem claim10_counterexample :
    (RoundRobinSelector.new.select_service [bareBackend, bareBackend]).2
        = { last_idx := 1 } ∧
    (RoundRobinSelector.select_service { last_idx := 1 } [bareBackend]).1 = 1 ∧
    ¬ ((RoundRobinSelector.select_service { last_idx := 1 } [bareBackend]).1
        < ([bareBackend] : List Backend).length) ∧
    lookup_backend [bareBackend]
        (RoundRobinSelector.select_service { last_idx := 1 } [bareBackend]).1
        = .error { kind := .notFound, msg := "No backend available" } := by
  refine ⟨rfl, rfl, by decide, rfl⟩

/-- C10, amended: `select_service` returns the pre-advance cursor, so its
result is below the list's length exactly when the incoming cursor is (as in
every run against a fixed-length list, where the advanced cursor stays below
the length); on an empty list it returns index 0 with the selector untouched
— index 0 is not a "no peer" value, and `serve_request`'s lookup is what
maps any out-of-range index to the `NotFound` "No backend available"
error. -/
theorem claim10_select_service_bounds (s : RoundRobinSelector)
    (backends : List Backend) (h : s.last_idx < backends.length) :
    (s.select_service backends).1 < backends.length ∧
    ((s.select_service backends).2).last_idx < backends.length ∧
    (∀ s' : RoundRobinSelector,
      s'.select_service ([] : List Backend) = (0, s')) ∧
    (∀ (services : List Backend) (idx : Nat), services.length ≤ idx →
      lookup_backend services idx
          = .error { kind := .notFound, msg := "No backend available" }) := by
  have hne : backends.isEmpty = false := by
    cases backends with
    | nil => simp at h
    | cons b bs => rfl
  refine ⟨?_, ?_, fun s' => rfl, fun services idx hlen => ?_⟩
  · simpa [RoundRobinSelector.select_service, hne] using h
  · have hpos : 0 < backends.length := by omega
    simp only [RoundRobinSelector.select_service, hne, Bool.false_eq_true,
      if_false]
    exact Nat.mod_lt _ hpos
  · unfold lookup_backend
    have : services[idx]? = none := by
      exact getElem?_neg services idx (by omega)
    simp [this]

/-- C10, witness: a fresh selector against a one-element list returns index
0, which is in bounds. -/
theorem claim10_select_service_witness :
    (RoundRobinSelector.new.select_service [bareBackend]).1
        < ([bareBackend] : List Backend).length :=
  (claim10_select_service_bounds RoundRobinSelector.new [bareBackend]
      (by decide)).1

end Jalb
